import Mathlib

/-!
Verification development for the Riyadh apartment-finder normalization and
filter pipeline (`app.py`).  The data flow of the pipeline is: a pandas row
(mapping canonical column names to raw cell values) is coerced by
`Listing.from_dict` into one canonical `Listing`; `_normalize_df` supplies a
provider-name fallback before the coercion and a district-centroid
coordinate fallback after it; the aggregated record list is then passed
through the purpose / numeric / furnishing filters, the sort step and the
two-pass deduplication.  Each of those stages is embedded below as an
executable Lean function translated from the corresponding Python code.
-/

set_option maxRecDepth 4000

/-- A raw cell value as it reaches `Listing.from_dict` through
the row loop of `_normalize_df`.  Cells delivered by `pandas.read_csv` via
`DataFrame.iterrows` are scalars: strings, floating-point numbers
(`numpy.float64`, a subclass of Python `float`, and Python ints — a
mixed-dtype frame interleaves its blocks through `astype(object)`, which
boxes integer cells as builtin `int` — both modeled by `num`), numpy
integer scalars (`npint`: when *every* column of the frame is
integer-typed, the single-dtype frame makes `iterrows` hand the `int64`
row over unconverted, and `numpy.int64` is NOT a subclass of Python
`int`), booleans, the float NaN missing-marker for a missing cell, and
Python `None` for a column that `_normalize_df` could not find at all.
`None` and NaN must be kept apart: `pd.isna` is true of both, but `None`
is falsy while NaN is truthy, and `None` is JSON-serializable while
`numpy.int64` is not. -/
inductive RawValue where
  | pynone
  | nan
  | str (s : String)
  | num (q : ℚ)
  | npint (n : ℤ)
  | boolean (b : Bool)
deriving DecidableEq, Repr

/-- The raw row: a finite mapping from canonical field name to raw cell. -/
abbrev RawDict := List (String × RawValue)

/-- `d.get(k)`: Python `dict.get` returns `None` for an absent key. -/
def RawDict.get (d : RawDict) (k : String) : RawValue :=
  match d.find? (fun p => p.1 == k) with
  | some p => p.2
  | none => RawValue.pynone

/-- `nd[k] = v`: replace (or insert) the binding of `k`. -/
def RawDict.set (d : RawDict) (k : String) (v : RawValue) : RawDict :=
  (k, v) :: d.filter (fun p => p.1 != k)

/-- `pd.isna(x)` on a scalar cell: true exactly for `None` and NaN. -/
def pdIsna : RawValue → Bool
  | .pynone => true
  | .nan => true
  | _ => false

/-- Python truthiness of a scalar cell, as used by the `or` fallbacks.
Note that float NaN is truthy in Python. -/
def pyTruthy : RawValue → Bool
  | .pynone => false
  | .nan => true
  | .str s => s != ""
  | .num q => q != 0
  | .npint n => n != 0
  | .boolean b => b

/-- Characters stripped by Python `str.strip()` (the ASCII whitespace set;
the further unicode whitespace Python also strips is irrelevant here). -/
def pyIsSpace (c : Char) : Bool :=
  c == ' ' || c == '\t' || c == '\n' || c == '\r' || c == '\x0b' || c == '\x0c'

/-- Model of Python `str.strip()`. -/
def strTrim (s : String) : String :=
  String.mk (((s.data.dropWhile pyIsSpace).reverse.dropWhile pyIsSpace).reverse)

/-- Model of Python `str.lower()` (ASCII case folding; the inputs compared
against are ASCII keywords, and Arabic letters are unaffected). -/
def strLower (s : String) : String :=
  String.mk (s.data.map Char.toLower)

/-- Decimal rendering of an integer, as Python `str` renders `int`. -/
def intRepr (n : ℤ) : String :=
  if n < 0 then "-" ++ Nat.repr n.natAbs else Nat.repr n.natAbs

/-- Rendering of a rational cell value as text.  Python renders floats in
decimal notation; no claim depends on the exact decimal shape, only on
rendering equal numbers equally, so the canonical `num/den` form is used. -/
def qstr (q : ℚ) : String :=
  if q.den = 1 then intRepr q.num else intRepr q.num ++ "/" ++ Nat.repr q.den

/-- Model of Python `str(x)` on a raw scalar cell. -/
def pyStr : RawValue → String
  | .pynone => "None"
  | .nan => "nan"
  | .str s => s
  | .num q => qstr q
  | .npint n => intRepr n
  | .boolean b => if b then "True" else "False"

/-- Numeric value of a digit list (most significant first). -/
def digitsVal (l : List Char) : ℕ :=
  l.foldl (fun a c => 10 * a + (c.toNat - 48)) 0

/-- Split a character list at the first `e`/`E`, for the exponent part of a
float literal. -/
def splitAtExp : List Char → List Char × Option (List Char)
  | [] => ([], none)
  | c :: t =>
    if c == 'e' || c == 'E' then ([], some t)
    else
      let r := splitAtExp t
      (c :: r.1, r.2)

/-- Parse an optionally signed digit string (the exponent of a float
literal). -/
def parseSignedDigits : List Char → Option ℤ
  | '+' :: t => if t ≠ [] ∧ t.all Char.isDigit then some (digitsVal t) else none
  | '-' :: t => if t ≠ [] ∧ t.all Char.isDigit then some (-(digitsVal t : ℤ)) else none
  | t => if t ≠ [] ∧ t.all Char.isDigit then some (digitsVal t) else none

/-- Integer power of ten over ℚ. -/
def qpow10 (z : ℤ) : ℚ :=
  if 0 ≤ z then ((10 : ℚ) ^ z.toNat) else 1 / ((10 : ℚ) ^ (-z).toNat)

/-- Parse the mantissa `digits[.digits]` / `.digits` of a float literal
(either side of the point may be empty, but not both). -/
def parseMantissa (l : List Char) : Option ℚ :=
  let ip := l.takeWhile Char.isDigit
  let rest := l.dropWhile Char.isDigit
  match rest with
  | [] => if ip = [] then none else some (digitsVal ip)
  | '.' :: fr =>
    if fr.all Char.isDigit ∧ (ip ≠ [] ∨ fr ≠ []) then
      some ((digitsVal ip : ℚ) + (digitsVal fr : ℚ) / (10 : ℚ) ^ fr.length)
    else none
  | _ => none

/-- Model of Python `float(s)` on an already-stripped string: an optional
sign, a decimal mantissa and an optional exponent; anything else fails.
(The `inf`/`nan` spellings Python also accepts would produce non-finite
floats; no claim depends on them and they are treated as parse failures.) -/
def parsePyFloat (s : String) : Option ℚ :=
  let sl : ℤ × List Char :=
    match s.data with
    | '+' :: t => (1, t)
    | '-' :: t => (-1, t)
    | t => (1, t)
  let me := splitAtExp sl.2
  match parseMantissa me.1 with
  | none => none
  | some m =>
    match me.2 with
    | none => some ((sl.1 : ℚ) * m)
    | some ec =>
      match parseSignedDigits ec with
      | none => none
      | some z => some ((sl.1 : ℚ) * m * qpow10 z)

/-- `to_float` of `Listing.from_dict`: absent or empty cells and parse
failures give `None`; otherwise thousands separators are stripped, the
text is trimmed and parsed as a float.  For a float-typed cell
`float(str(x))` is the value of the cell; for a numpy integer it is the integer;
`float("True")`/`float("False")` raise and are caught. -/
def toFloat (x : RawValue) : Option ℚ :=
  if pdIsna x then none
  else match x with
  | .str s => if s = "" then none else parsePyFloat (strTrim (String.mk (s.data.filter (· != ','))))
  | .num q => some q
  | .npint n => some (n : ℚ)
  | _ => none

/-- `to_str` of `Listing.from_dict`: absent cells give `None`; otherwise the
text is stripped and an empty result gives `None`. -/
def toStr (x : RawValue) : Option String :=
  if pdIsna x then none
  else
    let s := strTrim (pyStr x)
    if s = "" then none else some s

/-- `to_bool` of `Listing.from_dict`: a genuine boolean passes through;
otherwise the lower-cased trimmed text is matched against the fixed
true-like and false-like token sets, anything else giving unknown. -/
def toBool (x : RawValue) : Option Bool :=
  if pdIsna x then none
  else match x with
  | .boolean b => some b
  | _ =>
    let s := strLower (strTrim (pyStr x))
    if s ∈ ["true", "yes", "y", "1", "furnished", "مفروشة"] then some true
    else if s ∈ ["false", "no", "n", "0", "unfurnished", "غير مفروشة"] then some false
    else none

/-- Split a character list on commas. -/
def splitCommaAux : List Char → List Char → List (List Char)
  | [], acc => [acc.reverse]
  | c :: t, acc =>
    if c == ',' then acc.reverse :: splitCommaAux t []
    else splitCommaAux t (c :: acc)

/-- Strip one layer of matching single or double quotes from a trimmed
piece of a list literal. -/
def stripQuotes (s : String) : Option String :=
  match s.data with
  | [] => none
  | c :: t =>
    if (c == Char.ofNat 39 || c == Char.ofNat 34) ∧ t ≠ [] ∧ t.getLast? = some c then
      some (String.mk (t.dropLast))
    else none

/-- Model of `ast.literal_eval` restricted to list-of-string literals of the
plain bracketed, comma-separated, quoted form; other evaluable expressions
are not lists of strings and fall back to the single-element path, which is
the behaviour `to_list_imgs` gives them. -/
def pyLiteralList (s : String) : Option (List String) :=
  match s.data with
  | '[' :: t =>
    if t.getLast? = some ']' then
      let inner := t.dropLast
      if strTrim (String.mk inner) = "" then some []
      else (splitCommaAux inner []).mapM (fun piece => stripQuotes (strTrim (String.mk piece)))
    else none
  | _ => none

/-- `to_list_imgs` of `Listing.from_dict`: absent gives `None`; a literal
list of strings is parsed; otherwise a nonempty trimmed text is a
single-element list and an empty one gives `None`.  (The `isinstance(x,
list)` branch is unreachable: CSV cells are scalars.) -/
def toListImgs (x : RawValue) : Option (List String) :=
  if pdIsna x then none
  else
    let s := strTrim (pyStr x)
    match pyLiteralList s with
    | some l => some l
    | none => if s = "" then none else some [s]

/-- `DISTRICT_MAP_EN_TO_AR` of `app.py`. -/
def DISTRICT_MAP_EN_TO_AR : List (String × String) :=
  [("Al Murooj", "المروج"), ("Al Maseef", "المسيـف"), ("Al Nakheel", "النخيل"),
   ("Al Malqa", "الملقا"), ("Hittin", "حطين"), ("Al Sahafa", "الصحافة"),
   ("Al Wurud", "الورود"), ("Al Ghadir", "الغدير"), ("Al Andalus", "الأندلس"),
   ("Al Narjis", "النرجس"), ("Al Rabi", "الربيع"), ("Al Olaya", "العليا"),
   ("Al Arid", "العريض"), ("Al Murabba", "المربع"), ("Qurtubah", "قرطبة"),
   ("Al Yarmouk", "اليرموك"), ("Al Hamra", "الحمراء")]

/-- `DISTRICT_MAP_AR_TO_EN`, the inversion built in `app.py`. -/
def DISTRICT_MAP_AR_TO_EN : List (String × String) :=
  DISTRICT_MAP_EN_TO_AR.map (fun p => (p.2, p.1))

/-- `DISTRICT_CENTROIDS` of `app.py` (approximate district centroids). -/
def DISTRICT_CENTROIDS : List (String × ℚ × ℚ) :=
  [("Al Murooj", 24.7492, 46.6768), ("Al Maseef", 24.7466, 46.6394),
   ("Al Nakheel", 24.7400, 46.6500), ("Al Malqa", 24.8075, 46.6260),
   ("Hittin", 24.7778, 46.5900), ("Al Sahafa", 24.8080, 46.6400),
   ("Al Wurud", 24.7090, 46.6760), ("Al Narjis", 24.8820, 46.6630)]

/-- `norm_district` of `Listing.from_dict`: canonicalize a known Arabic
name to its English form, pass anything else through. -/
def norm_district (x : RawValue) : Option String :=
  match toStr x with
  | none => none
  | some s =>
    match DISTRICT_MAP_AR_TO_EN.find? (fun p => p.1 == s) with
    | some p => some p.2
    | none => some s

/-- `coord_lat` of `Listing.from_dict`: a parsed latitude outside
[-90, 90] becomes absent. -/
def coord_lat (x : RawValue) : Option ℚ :=
  match toFloat x with
  | none => none
  | some v => if -90 ≤ v ∧ v ≤ 90 then some v else none

/-- `coord_lon` of `Listing.from_dict`: a parsed longitude outside
[-180, 180] becomes absent. -/
def coord_lon (x : RawValue) : Option ℚ :=
  match toFloat x with
  | none => none
  | some v => if -180 ≤ v ∧ v ≤ 180 then some v else none

/-- The canonical 18-field listing record (the `Listing` dataclass).
`provider`, `listing_id`, `title` and `city` are plain strings because
`from_dict` always fills them with a nonempty default; the remaining
fields carry an explicit absence. -/
structure Listing where
  provider : String
  listing_id : String
  title : String
  price_sar : Option ℚ
  price_period : Option String
  bedrooms : Option ℚ
  bathrooms : Option ℚ
  size_sqm : Option ℚ
  furnished : Option Bool
  district : Option String
  city : String
  latitude : Option ℚ
  longitude : Option ℚ
  url : Option String
  images : Option (List String)
  description : Option String
  date_posted : Option String
  contact_phone : Option String
deriving DecidableEq, Repr

/-- True of the cell values the standard-library `json.dumps` can
serialize: numpy integer scalars (`numpy.int64`) are not JSON-serializable
and make `json.dumps` raise `TypeError`; `None`, NaN (serialized as the
token `NaN` under the default `allow_nan=True`), floats, strings and
booleans all serialize. -/
def jsonSerializable : RawValue → Bool
  | .npint _ => false
  | _ => true

/-- JSON-style text of one cell, for the serialization fed to the hash
fallback. -/
def RawValue.render : RawValue → String
  | .pynone => "null"
  | .nan => "NaN"
  | .str s => "\"" ++ s ++ "\""
  | .num q => qstr q
  | .npint n => intRepr n
  | .boolean b => if b then "true" else "false"

/-- Serialization of the raw row, standing in for
`json.dumps(d, sort_keys=True)`. -/
def serializeDict (d : RawDict) : String :=
  String.join (d.map (fun p => p.1 ++ ":" ++ p.2.render ++ ";"))

/-- Deterministic stand-in for the Python `hash` of strings, which is
per-process salted and implementation-defined; all the development uses of
it is that it is a total function into integers rendered as a nonempty
digit string. -/
def strHashModel (s : String) : ℕ :=
  s.data.foldl (fun a c => (a * 131 + c.toNat) % 1000000007) 7

/-- The `listing_id` fallback `str(hash(json.dumps(d, sort_keys=True)))`. -/
def hashFallback (d : RawDict) : String :=
  Nat.repr (strHashModel (serializeDict d))

/-- The field-by-field coercions of `Listing.from_dict`, given the resolved
`listing_id`.  The Python `x or default` fallbacks coincide with
`Option.getD` because `to_str` never returns an empty string. -/
def Listing.fields (d : RawDict) (lid : String) : Listing where
  provider := (toStr (d.get "provider")).getD "unknown"
  listing_id := lid
  title := (toStr (d.get "title")).getD "Apartment"
  price_sar := toFloat (d.get "price_sar")
  price_period := toStr (d.get "price_period")
  bedrooms := toFloat (d.get "bedrooms")
  bathrooms := toFloat (d.get "bathrooms")
  size_sqm := toFloat (d.get "size_sqm")
  furnished := toBool (d.get "furnished")
  district := norm_district (d.get "district")
  city := (toStr (d.get "city")).getD "Riyadh"
  latitude := coord_lat (d.get "latitude")
  longitude := coord_lon (d.get "longitude")
  url := toStr (d.get "url")
  images := toListImgs (d.get "images")
  description := toStr (d.get "description")
  date_posted := toStr (d.get "date_posted")
  contact_phone := toStr (d.get "contact_phone")

/-- `Listing.from_dict`.  When `listing_id` resolves to an explicit value
the construction is total; when it is absent, the fallback evaluates
`json.dumps(d, sort_keys=True)`, which raises `TypeError` as soon as the
row holds a value outside the JSON-serializable scalars.  That is
reachable through `pandas.read_csv` when every uploaded column is
integer-typed: the all-`int64` frame makes `iterrows` deliver
`numpy.int64` cells (a mixed-dtype frame instead interleaves through
`astype(object)`, boxing integers as builtin Python `int`, which
serialize). -/
def Listing.from_dict (d : RawDict) : Except String Listing :=
  match toStr (d.get "listing_id") with
  | some lid => .ok (Listing.fields d lid)
  | none =>
    if d.all (fun p => jsonSerializable p.2) then
      .ok (Listing.fields d (hashFallback d))
    else
      .error "TypeError: Object of type int64 is not JSON serializable"

/-- Decidable equality of exception-carrying results, for evaluating the
fallible stages on concrete inputs. -/
instance {ε α : Type} [DecidableEq ε] [DecidableEq α] : DecidableEq (Except ε α) := fun a b =>
  match a, b with
  | .ok x, .ok y =>
    match decEq x y with
    | isTrue h => isTrue (by rw [h])
    | isFalse h => isFalse (by intro hc; cases hc; exact h rfl)
  | .error x, .error y =>
    match decEq x y with
    | isTrue h => isTrue (by rw [h])
    | isFalse h => isFalse (by intro hc; cases hc; exact h rfl)
  | .ok _, .error _ => isFalse (by intro hc; cases hc)
  | .error _, .ok _ => isFalse (by intro hc; cases hc)

/-- The provider fallback of `_normalize_df`:
`nd["provider"] = nd.get("provider") or provider_name` — Python `or`
keeps the cell whenever it is truthy, and NaN is truthy. -/
def providerCell (nd : RawDict) (providerName : String) : RawValue :=
  if pyTruthy (nd.get "provider") then nd.get "provider" else RawValue.str providerName

/-- The provider string `from_dict` will produce after the fallback. -/
def normProvider (nd : RawDict) (providerName : String) : String :=
  (toStr (providerCell nd providerName)).getD "unknown"

/-- Centroid of a district name, when the table knows it. -/
def centroidLookup (s : String) : Option (ℚ × ℚ) :=
  (DISTRICT_CENTROIDS.find? (fun p => p.1 == s)).map (fun p => p.2)

/-- The coordinate fallback loop of `_normalize_df`, per record: when
either coordinate is missing and the district is in the centroid table,
both coordinates are overwritten with the centroid (no jitter). -/
def centroidFallback (r : Listing) : Listing :=
  match r.district with
  | none => r
  | some dn =>
    match centroidLookup dn with
    | none => r
    | some c =>
      if r.latitude.isNone || r.longitude.isNone then
        { r with latitude := some c.1, longitude := some c.2 }
      else r

/-- One row of `_normalize_df`: provider fallback, `from_dict`, centroid
fallback. -/
def normalizeRow (providerName : String) (nd : RawDict) : Except String Listing :=
  (Listing.from_dict (nd.set "provider" (providerCell nd providerName))).map centroidFallback

/-- The sentinel `-1e15` substituted for missing values by the price and
size filters. -/
def FILTER_SENTINEL : ℚ := -(10 ^ 15)

/-- The `between` lambda of the filter pipeline:
`pd.to_numeric(s, errors="coerce").fillna(-1e15).between(lo, hi)` —
missing becomes the sentinel, and `Series.between` is inclusive on both
ends. -/
def between (v : Option ℚ) (lo hi : ℚ) : Bool :=
  decide (lo ≤ v.getD FILTER_SENTINEL) && decide (v.getD FILTER_SENTINEL ≤ hi)

/-- The bedrooms filter predicate: missing is filled with the bound being
compared on each side, so a missing value passes. -/
def bedroomsPass (v : Option ℚ) (lo hi : ℚ) : Bool :=
  decide (lo ≤ v.getD lo) && decide (v.getD hi ≤ hi)

/-- `data = data[between(data["price_sar"], min_price, max_price)]`. -/
def priceFilter (lo hi : ℚ) (l : List Listing) : List Listing :=
  l.filter (fun r => between r.price_sar lo hi)

/-- The bedrooms row of the numeric filters. -/
def bedroomsFilter (lo hi : ℚ) (l : List Listing) : List Listing :=
  l.filter (fun r => bedroomsPass r.bedrooms lo hi)

/-- `data = data[between(data["size_sqm"], size_min, size_max)]`. -/
def sizeFilter (lo hi : ℚ) (l : List Listing) : List Listing :=
  l.filter (fun r => between r.size_sqm lo hi)

/-- The three positions of the furnishing selector. -/
inductive FurnChoice where
  | any
  | furnished_yes
  | furnished_no
deriving DecidableEq, Repr

/-- The furnishing filter predicate: no filtering for `any`; otherwise
`data["furnished"].fillna(False) == want`, i.e. a missing tri-state is
treated as `False` before the comparison. -/
def furnPass (choice : FurnChoice) (f : Option Bool) : Bool :=
  match choice with
  | .any => true
  | .furnished_yes => f.getD false == true
  | .furnished_no => f.getD false == false

/-- The furnishing filter over the record list. -/
def furnFilter (choice : FurnChoice) (l : List Listing) : List Listing :=
  l.filter (fun r => furnPass choice r.furnished)

/-- The rent branch of the purpose filter: keep rows whose lower-cased
`price_period` text is `monthly` or `yearly`, or whose period is missing
(the `isna` disjunct). -/
def rentKeep (p : Option String) : Bool :=
  match p with
  | none => true
  | some s => strLower s == "monthly" || strLower s == "yearly"

/-- The sale branch of the purpose filter: keep only rows with a missing
`price_period`. -/
def saleKeep (p : Option String) : Bool :=
  p.isNone

/-- `data[... rent condition ...]`. -/
def purposeFilterRent (l : List Listing) : List Listing :=
  l.filter (fun r => rentKeep r.price_period)

/-- `data[data["price_period"].isna()]`. -/
def purposeFilterSale (l : List Listing) : List Listing :=
  l.filter (fun r => saleKeep r.price_period)

/-- First deduplication key:
`data["provider"].fillna("") + "|" + data["listing_id"].fillna("")`
(the `fillna` is vacuous: `from_dict` never emits a missing provider or
listing id). -/
def key1 (r : Listing) : String :=
  r.provider ++ "|" ++ r.listing_id

/-- Second deduplication key: `data["title"].fillna("") + "|" +
data["district"].fillna("") + "|" + data["price_sar"].fillna(-1).astype(str)`. -/
def key2 (r : Listing) : String :=
  r.title ++ "|" ++ r.district.getD "" ++ "|" ++ qstr (r.price_sar.getD (-1))

/-- The Boolean mask `~key.duplicated(keep="first")` evaluated on the full
pre-dedup frame: position i is `true` when no earlier position carries the
same key value — earlier positions count whether or not they themselves
survive any filter, because the mask is computed once, before filtering. -/
def notDupMaskAux (key : Listing → String) (seen : List String) : List Listing → List Bool
  | [] => []
  | x :: xs => decide (key x ∉ seen) :: notDupMaskAux key (key x :: seen) xs

/-- The full-frame not-duplicated mask of one key. -/
def notDupMask (key : Listing → String) (l : List Listing) : List Bool :=
  notDupMaskAux key [] l

/-- Positionwise conjunction of two Boolean masks. -/
def maskAnd (m1 m2 : List Bool) : List Bool :=
  List.zipWith (fun a b => a && b) m1 m2

/-- `data.loc[mask]`: keep the rows whose mask entry is true. -/
def applyMask : List Listing → List Bool → List Listing
  | [], _ => []
  | _ :: _, [] => []
  | x :: xs, b :: bs => if b then x :: applyMask xs bs else applyMask xs bs

/-- The deduplication step of the pipeline.  Both `key1` and `key2` are
computed on the pre-dedup frame; `data.loc[~key1.duplicated(keep="first")]`
keeps the first-mask survivors, and the second
`data.loc[~key2.duplicated(keep="first")]` applies the *full-frame* second
mask to them — `.loc` aligns the mask by row label, and the surviving
labels are a subset of the original ones, so a row survives both
statements exactly when both precomputed masks keep it.  In particular a
row is dropped when its `key2` duplicates an earlier row even if that
earlier row was itself removed by the first mask. -/
def dedup (l : List Listing) : List Listing :=
  applyMask l (maskAnd (notDupMask key1 l) (notDupMask key2 l))

/-- Sequential reformulation of `dedup`, used by the proofs: walk the rows
once, remembering every `key1` and every `key2` seen so far (from kept and
dropped rows alike), and keep a row exactly when both of its keys are
new. -/
def dedupRec (seen1 seen2 : List String) : List Listing → List Listing
  | [] => []
  | x :: xs =>
    if key1 x ∉ seen1 ∧ key2 x ∉ seen2 then
      x :: dedupRec (key1 x :: seen1) (key2 x :: seen2) xs
    else dedupRec (key1 x :: seen1) (key2 x :: seen2) xs

/-- The 18 canonical columns (`TEMPLATE_COLUMNS`). -/
def TEMPLATE_COLUMNS : List String :=
  ["provider", "listing_id", "title", "price_sar", "price_period", "bedrooms",
   "bathrooms", "size_sqm", "furnished", "district", "city", "latitude",
   "longitude", "url", "images", "description", "date_posted", "contact_phone"]

/-- The `by` argument handed to `DataFrame.sort_values`: either a column
label, or — as the numeric sort branches of the app actually do — a whole
Series of computed keys. -/
inductive SortBy where
  | label (s : String)
  | series (keys : List (Option ℚ))

/-- Boolean comparison on optional sort keys putting missing keys last
(`na_position="last"`), ascending or descending on present keys. -/
def optKeyLeB (asc : Bool) (a b : Option ℚ) : Bool :=
  match a, b with
  | some x, some y => if asc then decide (x ≤ y) else decide (y ≤ x)
  | some _, none => true
  | none, some _ => false
  | none, none => true

/-- Sort records by an optional numeric key, missing keys last. -/
def sortByOptKey (key : Listing → Option ℚ) (asc : Bool) (rows : List Listing) : List Listing :=
  List.insertionSort (fun a b => optKeyLeB asc (key a) (key b) = true) rows

/-- Numeric key of a sortable column. -/
def colKey (s : String) (r : Listing) : Option ℚ :=
  if s = "price_sar" then r.price_sar
  else if s = "size_sqm" then r.size_sqm
  else if s = "bedrooms" then r.bedrooms
  else if s = "bathrooms" then r.bathrooms
  else none

/-- Model of `DataFrame.sort_values(by, ascending, na_position="last")`:
`by` must be a hashable column (or index-level) label of the frame.
Inside pandas, a single non-list `by` is wrapped as `[by]` and passed to
`_get_label_or_level_values`, whose `_is_label_reference` and
`_is_level_reference` checks both require a hashable key that occurs among
the axis labels; a pandas Series fails both (it is not hashable and not a
label), so the call raises `KeyError`. -/
def sortValues (cols : List String) (b : SortBy) (asc : Bool) (rows : List Listing) :
    Except String (List Listing) :=
  match b with
  | .series _ => .error "KeyError"
  | .label s => if s ∈ cols then .ok (sortByOptKey (colKey s) asc rows) else .error "KeyError"

/-- The four positions of the sort selector. -/
inductive SortMode where
  | newest
  | price_lh
  | price_hl
  | size_ls
deriving DecidableEq, Repr

/-- The `by` argument each sort branch of `app.py` passes: the newest
branch passes the label of the `_parsed_date` helper column it just
added, while the three numeric branches pass the Series
`pd.to_numeric(data[col], errors="coerce")` itself. -/
def sortValuesArg (mode : SortMode) (rows : List Listing) : SortBy :=
  match mode with
  | .newest => .label "_parsed_date"
  | .price_lh => .series (rows.map (fun r => r.price_sar))
  | .price_hl => .series (rows.map (fun r => r.price_sar))
  | .size_ls => .series (rows.map (fun r => r.size_sqm))

/-- Direction flag of each sort branch. -/
def sortModeAsc (mode : SortMode) : Bool :=
  match mode with
  | .price_lh => true
  | _ => false

/-- The sort step of the pipeline as `app.py` invokes it on the filtered
frame (whose columns are `TEMPLATE_COLUMNS`, plus `_parsed_date` in the
newest branch). -/
def appSort (mode : SortMode) (rows : List Listing) : Except String (List Listing) :=
  sortValues ("_parsed_date" :: TEMPLATE_COLUMNS) (sortValuesArg mode rows) (sortModeAsc mode) rows

/-- `clean_phone`, first stage: `PHONE_DIGITS.sub("", str(phone))` keeps
only the digit characters. -/
def phoneDigits (p : String) : List Char :=
  p.data.filter Char.isDigit

/-- `clean_phone`, leading-zero rule: a digit string starting with `0` of
length at least 9 becomes `966` followed by the string with all leading
zeros stripped (`lstrip("0")`). -/
def cpStep1 (ds : List Char) : List Char :=
  if ds.head? = some '0' ∧ 9 ≤ ds.length then
    '9' :: '6' :: '6' :: ds.dropWhile (· == '0')
  else ds

/-- `digits.startswith("966")`. -/
def startsWith966 : List Char → Bool
  | '9' :: '6' :: '6' :: _ => true
  | _ => false

/-- `clean_phone`, country-code rule: a digit string of length 9 or 10
without the `966` country code becomes `966` followed by its last nine
digits (`digits[-9:]`). -/
def cpStep2 (ds : List Char) : List Char :=
  if (ds.length = 9 ∨ ds.length = 10) ∧ startsWith966 ds = false then
    '9' :: '6' :: '6' :: ds.drop (ds.length - 9)
  else ds

/-- `clean_phone`: `None` and the empty string are falsy and give `None`;
a phone with no digit characters gives `None`; otherwise the two rewrite
rules are applied in order. -/
def clean_phone (phone : Option String) : Option String :=
  match phone with
  | none => none
  | some p =>
    if p = "" then none
    else
      let ds := phoneDigits p
      if ds = [] then none
      else some (String.mk (cpStep2 (cpStep1 ds)))

/-- A fully-absent baseline record, as `from_dict` produces for an empty
row (with a provider tag and listing id put in by hand). -/
def sampleListing : Listing where
  provider := "aqar"
  listing_id := "L1"
  title := "Apartment"
  price_sar := none
  price_period := none
  bedrooms := none
  bathrooms := none
  size_sqm := none
  furnished := none
  district := none
  city := "Riyadh"
  latitude := none
  longitude := none
  url := none
  images := none
  description := none
  date_posted := none
  contact_phone := none

/-- Dedup counterexample, first record: absent price. -/
def cexA : Listing :=
  { sampleListing with provider := "p1", listing_id := "a", title := "T",
                       district := some "Al Murooj", price_sar := none }

/-- Dedup counterexample, second record: price exactly `-1`, the
`fillna(-1)` sentinel of the second dedup key. -/
def cexB : Listing :=
  { sampleListing with provider := "p2", listing_id := "b", title := "T",
                       district := some "Al Murooj", price_sar := some (-1) }

/-- Centroid counterexample row: an unrecognized district with a parseable
latitude and an unparseable longitude. -/
def c8row : RawDict :=
  [("listing_id", RawValue.str "X1"), ("district", RawValue.str "Diriyah"),
   ("latitude", RawValue.str "24.7"), ("longitude", RawValue.str "oops")]

/-- A record with a recognized district and no coordinates, for the
centroid-fallback witness. -/
def c8wListing : Listing :=
  { sampleListing with district := some "Al Murooj" }

/-- Normalizer counterexample row: the canonical dict `_normalize_df`
builds for the one row of the CSV `bedrooms,bathrooms` / `3,2` (every
column integer-typed, no `listing_id`).  `read_csv` gives a single-dtype
`int64` frame, so `DataFrame.values` hands `iterrows` the int64 array
unconverted and the two found cells are `numpy.int64` scalars; the 16
unmatched canonical columns are Python `None`. -/
def c1badRow : RawDict :=
  [("provider", RawValue.pynone), ("listing_id", RawValue.pynone),
   ("title", RawValue.pynone), ("price_sar", RawValue.pynone),
   ("price_period", RawValue.pynone), ("bedrooms", RawValue.npint 3),
   ("bathrooms", RawValue.npint 2), ("size_sqm", RawValue.pynone),
   ("furnished", RawValue.pynone), ("district", RawValue.pynone),
   ("city", RawValue.pynone), ("latitude", RawValue.pynone),
   ("longitude", RawValue.pynone), ("url", RawValue.pynone),
   ("images", RawValue.pynone), ("description", RawValue.pynone),
   ("date_posted", RawValue.pynone), ("contact_phone", RawValue.pynone)]

/-- A JSON-safe row without a `listing_id`, for the fallback witness: the
row of the *mixed*-dtype CSV `title,bedrooms` / `Flat,3`.  There
`DataFrame.values` interleaves the blocks into an object array via
`astype(object)`, which boxes the `int64` cell as a builtin Python `int`
(modeled by `num`) — JSON-serializable, so this row normalizes fine. -/
def c1goodRow : RawDict :=
  [("title", RawValue.str "Flat"), ("bedrooms", RawValue.num 3)]

/-- Mask-alignment counterexample records: `mB` shares its first key with
`mA` and its second key with `mC`. -/
def mA : Listing :=
  { sampleListing with provider := "p", listing_id := "x", title := "T1",
                       district := some "D", price_sar := some 100 }

/-- Second record: removed by the first mask (same provider and listing id
as `mA`), yet still the first occurrence of its second key. -/
def mB : Listing :=
  { sampleListing with provider := "p", listing_id := "x", title := "T2",
                       district := some "D", price_sar := some 200 }

/-- Third record: distinct from `mA` in both key tuples, but its second
key duplicates the already-removed `mB`, so the label-aligned second mask
drops it. -/
def mC : Listing :=
  { sampleListing with provider := "q", listing_id := "y", title := "T2",
                       district := some "D", price_sar := some 200 }

/-- A row whose provider cell is the NaN missing-marker. -/
def c10row : RawDict :=
  [("provider", RawValue.nan)]

theorem toDigitsCore_ne_nil (b fuel n : ℕ) (ds : List Char) (h : ds ≠ []) :
    Nat.toDigitsCore b fuel n ds ≠ [] := by
  induction fuel generalizing n ds with
  | zero => simpa [Nat.toDigitsCore] using h
  | succ fuel ih =>
    simp only [Nat.toDigitsCore]
    split
    · simp
    · exact ih _ _ (by simp)

theorem natRepr_ne_empty (n : ℕ) : Nat.repr n ≠ "" := by
  intro h
  have h2 : Nat.toDigits 10 n = [] := congrArg String.data h
  revert h2
  show Nat.toDigitsCore 10 (n + 1) n [] ≠ []
  simp only [Nat.toDigitsCore]
  split
  · simp
  · exact toDigitsCore_ne_nil _ _ _ _ (by simp)

theorem hashFallback_ne_empty (d : RawDict) : hashFallback d ≠ "" :=
  natRepr_ne_empty _

theorem toStr_ne_empty {x : RawValue} {s : String} (h : toStr x = some s) : s ≠ "" := by
  unfold toStr at h
  split at h
  · exact absurd h (by simp)
  · dsimp only at h
    split at h
    · exact absurd h (by simp)
    · rename_i hne
      cases h
      exact hne

theorem getD_toStr_ne_empty (x : RawValue) (dflt : String) (hd : dflt ≠ "") :
    (toStr x).getD dflt ≠ "" := by
  cases hx : toStr x with
  | none => simpa using hd
  | some s => simpa using toStr_ne_empty hx

theorem from_dict_ok_fields {d : RawDict} {l : Listing} (h : Listing.from_dict d = .ok l) :
    ∃ lid, l = Listing.fields d lid := by
  unfold Listing.from_dict at h
  split at h
  · exact ⟨_, by cases h; rfl⟩
  · split at h
    · exact ⟨_, by cases h; rfl⟩
    · exact absurd h (by simp)

theorem centroidFallback_provider (r : Listing) : (centroidFallback r).provider = r.provider := by
  unfold centroidFallback
  split
  · rfl
  · split
    · rfl
    · split
      · rfl
      · rfl

theorem get_set_same (nd : RawDict) (k : String) (v : RawValue) :
    (nd.set k v).get k = v := by
  simp [RawDict.get, RawDict.set, List.find?]

theorem dedupRec_eq_applyMask (s1 s2 : List String) (l : List Listing) :
    applyMask l (maskAnd (notDupMaskAux key1 s1 l) (notDupMaskAux key2 s2 l))
      = dedupRec s1 s2 l := by
  induction l generalizing s1 s2 with
  | nil => rfl
  | cons x xs ih =>
    simp only [notDupMaskAux, maskAnd, List.zipWith, applyMask, dedupRec]
    by_cases h : key1 x ∉ s1 ∧ key2 x ∉ s2
    · have hb : (decide (key1 x ∉ s1) && decide (key2 x ∉ s2)) = true := by
        simp [h.1, h.2]
      rw [if_pos hb, if_pos h]
      exact congrArg (fun t => x :: t) (ih _ _)
    · have hb : ¬ ((decide (key1 x ∉ s1) && decide (key2 x ∉ s2)) = true) := by
        simpa [Bool.and_eq_true] using h
      rw [if_neg hb, if_neg h]
      exact ih _ _

theorem dedup_eq_dedupRec (l : List Listing) : dedup l = dedupRec [] [] l :=
  dedupRec_eq_applyMask [] [] l

theorem mem_dedupRec {s1 s2 : List String} {l : List Listing} {x : Listing}
    (hx : x ∈ dedupRec s1 s2 l) : x ∈ l ∧ key1 x ∉ s1 ∧ key2 x ∉ s2 := by
  induction l generalizing s1 s2 with
  | nil => simp [dedupRec] at hx
  | cons y ys ih =>
    simp only [dedupRec] at hx
    split at hx
    · rename_i hcond
      rcases List.mem_cons.mp hx with rfl | hx2
      · exact ⟨List.mem_cons_self _ _, hcond⟩
      · have := ih hx2
        exact ⟨List.mem_cons_of_mem _ this.1,
               fun hc => this.2.1 (List.mem_cons_of_mem _ hc),
               fun hc => this.2.2 (List.mem_cons_of_mem _ hc)⟩
    · have := ih hx
      exact ⟨List.mem_cons_of_mem _ this.1,
             fun hc => this.2.1 (List.mem_cons_of_mem _ hc),
             fun hc => this.2.2 (List.mem_cons_of_mem _ hc)⟩

theorem pairwise_dedupRec (s1 s2 : List String) (l : List Listing) :
    (dedupRec s1 s2 l).Pairwise (fun a b => key1 a ≠ key1 b ∧ key2 a ≠ key2 b) := by
  induction l generalizing s1 s2 with
  | nil => simp [dedupRec]
  | cons x xs ih =>
    simp only [dedupRec]
    split
    · refine List.Pairwise.cons ?_ (ih _ _)
      intro b hb
      have hmem := mem_dedupRec hb
      exact ⟨fun he => hmem.2.1 (he ▸ List.mem_cons_self _ _),
             fun he => hmem.2.2 (he ▸ List.mem_cons_self _ _)⟩
    · exact ih _ _

theorem dedupRec_eq_self (s1 s2 : List String) (l : List Listing)
    (hp : l.Pairwise (fun a b => key1 a ≠ key1 b ∧ key2 a ≠ key2 b))
    (hs : ∀ x ∈ l, key1 x ∉ s1 ∧ key2 x ∉ s2) :
    dedupRec s1 s2 l = l := by
  induction l generalizing s1 s2 with
  | nil => rfl
  | cons x xs ih =>
    rcases List.pairwise_cons.mp hp with ⟨hx, hxs⟩
    simp only [dedupRec]
    rw [if_pos (hs x (List.mem_cons_self _ _))]
    congr 1
    refine ih (key1 x :: s1) (key2 x :: s2) hxs (fun y hy => ⟨?_, ?_⟩)
    · intro hc
      rcases List.mem_cons.mp hc with he | hc2
      · exact (hx y hy).1 he.symm
      · exact (hs y (List.mem_cons_of_mem _ hy)).1 hc2
    · intro hc
      rcases List.mem_cons.mp hc with he | hc2
      · exact (hx y hy).2 he.symm
      · exact (hs y (List.mem_cons_of_mem _ hy)).2 hc2


theorem allDigit_of_sublist {l1 l2 : List Char} (hsub : List.Sublist l1 l2)
    (hall : l2.all Char.isDigit = true) : l1.all Char.isDigit = true := by
  rw [List.all_eq_true] at *
  exact fun x hx => hall x (hsub.subset hx)

theorem phoneDigits_all (p : String) : (phoneDigits p).all Char.isDigit = true := by
  rw [List.all_eq_true]
  intro x hx
  exact (List.mem_filter.mp hx).2

theorem cpStep1_all {ds : List Char} (h : ds.all Char.isDigit = true) :
    (cpStep1 ds).all Char.isDigit = true := by
  unfold cpStep1
  split
  · have h1 : (ds.dropWhile (· == '0')).all Char.isDigit = true :=
      allDigit_of_sublist (List.dropWhile_sublist _) h
    rw [List.all_cons, List.all_cons, List.all_cons, h1]
    decide
  · exact h

theorem cpStep2_all {ds : List Char} (h : ds.all Char.isDigit = true) :
    (cpStep2 ds).all Char.isDigit = true := by
  unfold cpStep2
  split
  · have h1 : (ds.drop (ds.length - 9)).all Char.isDigit = true :=
      allDigit_of_sublist (List.drop_sublist _ _) h
    rw [List.all_cons, List.all_cons, List.all_cons, h1]
    decide
  · exact h

/-- C1: the claim says `Listing.from_dict` never raises on any raw mapping,
including the `listing_id` hash-fallback path.  The code contradicts it:
when `listing_id` is absent the fallback evaluates
`json.dumps(d, sort_keys=True)`, which raises `TypeError` on the
`numpy.int64` cells that `read_csv`+`iterrows` deliver when every column
of the uploaded frame is integer-typed — `c1badRow` is the canonical dict
of the one row of the CSV `bedrooms,bathrooms` / `3,2` with no
`listing_id` column, and the failure is shown both at `from_dict` itself
and end to end through `normalizeRow` (first two conjuncts).  On every
JSON-serializable row the claimed guarantee does hold: a Listing results,
all 18 fields populated, the four defaulted strings nonempty, and an
absent `listing_id` resolved to the hash fallback (third conjunct); a row
with an explicit `listing_id` is always safe (fourth conjunct). -/
theorem C1_normalizer_fallback :
    Listing.from_dict c1badRow = .error "TypeError: Object of type int64 is not JSON serializable"
    ∧ normalizeRow "aqar" c1badRow
        = .error "TypeError: Object of type int64 is not JSON serializable"
    ∧ (∀ d : RawDict, d.all (fun p => jsonSerializable p.2) = true →
        ∃ l, Listing.from_dict d = .ok l ∧ l.provider ≠ "" ∧ l.listing_id ≠ ""
          ∧ l.title ≠ "" ∧ l.city ≠ ""
          ∧ (toStr (d.get "listing_id") = none → l.listing_id = hashFallback d))
    ∧ (∀ (d : RawDict) (s : String), toStr (d.get "listing_id") = some s →
        Listing.from_dict d = .ok (Listing.fields d s)) := by
  refine ⟨by decide, by decide, ?_, ?_⟩
  · intro d hall
    unfold Listing.from_dict
    cases hid : toStr (d.get "listing_id") with
    | some lid =>
      refine ⟨Listing.fields d lid, rfl, ?_, ?_, ?_, ?_, ?_⟩
      · exact getD_toStr_ne_empty _ _ (by decide)
      · show lid ≠ ""
        exact toStr_ne_empty hid
      · exact getD_toStr_ne_empty _ _ (by decide)
      · exact getD_toStr_ne_empty _ _ (by decide)
      · intro hc
        cases hc
    | none =>
      rw [if_pos hall]
      refine ⟨Listing.fields d (hashFallback d), rfl, ?_, ?_, ?_, ?_, fun _ => rfl⟩
      · exact getD_toStr_ne_empty _ _ (by decide)
      · exact hashFallback_ne_empty d
      · exact getD_toStr_ne_empty _ _ (by decide)
      · exact getD_toStr_ne_empty _ _ (by decide)
  · intro d s hs
    unfold Listing.from_dict
    rw [hs]

/-- C1 witness: the guarded totality applied to a JSON-safe row without a
`listing_id`, and the explicit-id case applied to a concrete row. -/
theorem C1_normalizer_fallback_witness :
    (c1goodRow.all (fun p => jsonSerializable p.2) = true
      ∧ ∃ l, Listing.from_dict c1goodRow = .ok l ∧ l.provider ≠ "" ∧ l.listing_id ≠ ""
          ∧ l.title ≠ "" ∧ l.city ≠ ""
          ∧ (toStr (c1goodRow.get "listing_id") = none → l.listing_id = hashFallback c1goodRow))
    ∧ Listing.from_dict [("listing_id", RawValue.str "L7")]
        = .ok (Listing.fields [("listing_id", RawValue.str "L7")] "L7") :=
  ⟨⟨by decide, C1_normalizer_fallback.2.2.1 c1goodRow (by decide)⟩,
   C1_normalizer_fallback.2.2.2 [("listing_id", RawValue.str "L7")] "L7" (by decide)⟩

/-- C2 counterexample: the claim says a record with an absent value always
passes the numeric filters; but an absent `price_sar` (or `size_sqm`) is
filled with the sentinel `-1e15`, which lies outside every caller-choosable
band (price minimum at least 1000, size minimum at least 0), so the record
is dropped. -/
theorem C2_counterexample :
    priceFilter 1000 15000 [sampleListing] = []
    ∧ sizeFilter 0 1200 [sampleListing] = []
    ∧ sampleListing.price_sar = none ∧ sampleListing.size_sqm = none :=
  ⟨by with_unfolding_all rfl, by with_unfolding_all rfl, rfl, rfl⟩

/-- C2 amended: a present value passes each numeric filter exactly when it
lies in the inclusive [min, max] band; an absent bedrooms value always
passes; but an absent price or size value is replaced by the sentinel
`-1e15` and passes only when `min ≤ -1e15` — in particular it is excluded
whenever `0 ≤ min`, which covers every band the sliders can produce. -/
theorem C2_numeric_filters_amended :
    ∀ (q lo hi : ℚ) (l : List Listing) (r : Listing),
      (between (some q) lo hi = true ↔ (lo ≤ q ∧ q ≤ hi))
      ∧ (between none lo hi = true ↔ (lo ≤ FILTER_SENTINEL ∧ FILTER_SENTINEL ≤ hi))
      ∧ (0 ≤ lo → between none lo hi = false)
      ∧ (bedroomsPass (some q) lo hi = true ↔ (lo ≤ q ∧ q ≤ hi))
      ∧ bedroomsPass none lo hi = true
      ∧ (r ∈ priceFilter lo hi l ↔ (r ∈ l ∧ between r.price_sar lo hi = true))
      ∧ (r ∈ bedroomsFilter lo hi l ↔ (r ∈ l ∧ bedroomsPass r.bedrooms lo hi = true))
      ∧ (r ∈ sizeFilter lo hi l ↔ (r ∈ l ∧ between r.size_sqm lo hi = true)) := by
  intro q lo hi l r
  refine ⟨?_, ?_, ?_, ?_, ?_, List.mem_filter, List.mem_filter, List.mem_filter⟩
  · simp [between, Bool.and_eq_true]
  · simp [between, Bool.and_eq_true]
  · intro h0
    have hs : ¬ (lo ≤ FILTER_SENTINEL) := by
      have : FILTER_SENTINEL < 0 := by norm_num [FILTER_SENTINEL]
      linarith
    simp [between, hs]
  · simp [bedroomsPass, Bool.and_eq_true]
  · simp [bedroomsPass]

/-- C2 witness: the amended theorem at concrete bands. -/
theorem C2_numeric_filters_witness :
    between none 1000 15000 = false
    ∧ bedroomsPass none 2 5 = true
    ∧ between (some 1000) 1000 15000 = true :=
  ⟨(C2_numeric_filters_amended 0 1000 15000 [] sampleListing).2.2.1 (by with_unfolding_all decide),
   (C2_numeric_filters_amended 0 2 5 [] sampleListing).2.2.2.2.1,
   (C2_numeric_filters_amended 1000 1000 15000 [] sampleListing).1.mpr
     ⟨by with_unfolding_all decide, by with_unfolding_all decide⟩⟩

/-- C3 counterexample: the claim says a record with absent `furnished` is
excluded under the "unfurnished" filter; but the code compares
`furnished.fillna(False) == False`, which keeps it. -/
theorem C3_counterexample :
    furnFilter FurnChoice.furnished_no [sampleListing] = [sampleListing]
    ∧ sampleListing.furnished = none :=
  ⟨by decide, rfl⟩

/-- C3 amended: a record with absent `furnished` is excluded under the
"furnished" filter but INCLUDED under the "unfurnished" filter (absent is
filled with False before the comparison) and under "any"; a present
tri-state is kept exactly when it matches the chosen side. -/
theorem C3_furnishing_amended :
    ∀ (f : Option Bool) (b : Bool) (choice : FurnChoice) (l : List Listing) (r : Listing),
      furnPass FurnChoice.any f = true
      ∧ furnPass FurnChoice.furnished_yes none = false
      ∧ furnPass FurnChoice.furnished_no none = true
      ∧ furnPass FurnChoice.furnished_yes (some b) = b
      ∧ furnPass FurnChoice.furnished_no (some b) = !b
      ∧ (r ∈ furnFilter choice l ↔ (r ∈ l ∧ furnPass choice r.furnished = true)) := by
  intro f b choice l r
  refine ⟨rfl, rfl, rfl, ?_, ?_, List.mem_filter⟩
  · cases b <;> rfl
  · cases b <;> rfl

/-- C3 witness: the amended theorem at concrete inputs. -/
theorem C3_furnishing_witness :
    furnPass FurnChoice.furnished_no none = true
    ∧ furnPass FurnChoice.furnished_yes none = false :=
  ⟨(C3_furnishing_amended none true FurnChoice.any [] sampleListing).2.2.1,
   (C3_furnishing_amended none true FurnChoice.any [] sampleListing).2.1⟩

/-- C4: the purpose filter keeps a record in "rent" mode exactly when its
`price_period` lower-cases to `monthly` or `yearly` or is absent, keeps a
record in "sale" mode exactly when the period is absent, and consequently
an absent-period record passes in both modes. -/
theorem C4_purpose_filter :
    ∀ (p : Option String) (s : String) (l : List Listing) (r : Listing),
      rentKeep none = true
      ∧ saleKeep none = true
      ∧ (saleKeep p = true ↔ p = none)
      ∧ (rentKeep (some s) = true ↔ (strLower s = "monthly" ∨ strLower s = "yearly"))
      ∧ (rentKeep p = true ↔
          (p = none ∨ ∃ t, p = some t ∧ (strLower t = "monthly" ∨ strLower t = "yearly")))
      ∧ (r ∈ purposeFilterRent l ↔ (r ∈ l ∧ rentKeep r.price_period = true))
      ∧ (r ∈ purposeFilterSale l ↔ (r ∈ l ∧ saleKeep r.price_period = true)) := by
  intro p s l r
  refine ⟨rfl, rfl, ?_, ?_, ?_, List.mem_filter, List.mem_filter⟩
  · cases p <;> simp [saleKeep]
  · simp [rentKeep]
  · cases p with
    | none => simp [rentKeep]
    | some t => simp [rentKeep]

/-- C4 witness: the filter at concrete periods. -/
theorem C4_purpose_filter_witness :
    rentKeep (some "Monthly") = true
    ∧ rentKeep none = true
    ∧ saleKeep none = true :=
  ⟨(C4_purpose_filter (some "Monthly") "Monthly" [] sampleListing).2.2.2.1.mpr
     (Or.inl (by decide)),
   (C4_purpose_filter none "x" [] sampleListing).1,
   (C4_purpose_filter none "x" [] sampleListing).2.1⟩

/-- C5: the phone normalization strips every non-digit character (the
output is all digits whenever one is produced), and maps the four claimed
scenarios as stated: local leading-zero form, bare subscriber number, and
the already-prefixed international form all normalize to
`966501234567`, while empty or absent input gives absence. -/
theorem C5_clean_phone :
    clean_phone (some "0501234567") = some "966501234567"
    ∧ clean_phone (some "501234567") = some "966501234567"
    ∧ clean_phone (some "+966501234567") = some "966501234567"
    ∧ clean_phone (some "") = none
    ∧ clean_phone none = none
    ∧ (∀ p s, clean_phone (some p) = some s → s.data.all Char.isDigit = true) := by
  refine ⟨by decide, by decide, by decide, by decide, rfl, ?_⟩
  intro p s h
  simp only [clean_phone] at h
  by_cases hp : p = ""
  · rw [if_pos hp] at h
    cases h
  · rw [if_neg hp] at h
    by_cases hd : phoneDigits p = []
    · rw [if_pos hd] at h
      cases h
    · rw [if_neg hd] at h
      cases h
      show (cpStep2 (cpStep1 (phoneDigits p))).all Char.isDigit = true
      exact cpStep2_all (cpStep1_all (phoneDigits_all p))

/-- C5 witness: the digits-only guarantee applied to the first scenario. -/
theorem C5_clean_phone_witness :
    ("966501234567".data.all Char.isDigit = true) :=
  C5_clean_phone.2.2.2.2.2 "0501234567" "966501234567" (by decide)

/-- C6 counterexample, two independent failures of the claim.  First, the
second mask is computed on the pre-dedup frame and label-aligned, so `mC`
is dropped even though both its `(provider, listing_id)` and its
`(title, district, price_sar)` differ from those of the surviving `mA`:
its second key duplicates only `mB`, which the first mask already removed
— the claimed second pass over the result of the first pass would have
kept it.  Second, the keys are joined strings with `fillna(-1)` on the
price, so `cexB` with price exactly `-1` shares a key with `cexA` whose
price is absent and is removed although neither of its key tuples equals
those of the survivor. -/
theorem C6_counterexample :
    dedup [mA, mB, mC] = [mA]
    ∧ (mC.provider, mC.listing_id) ≠ (mA.provider, mA.listing_id)
    ∧ (mC.title, mC.district, mC.price_sar) ≠ (mA.title, mA.district, mA.price_sar)
    ∧ (mB.provider, mB.listing_id) = (mA.provider, mA.listing_id)
    ∧ dedup [cexA, cexB] = [cexA]
    ∧ (cexB.provider, cexB.listing_id) ≠ (cexA.provider, cexA.listing_id)
    ∧ (cexB.title, cexB.district, cexB.price_sar) ≠ (cexA.title, cexA.district, cexA.price_sar) :=
  ⟨by with_unfolding_all rfl, by decide, by with_unfolding_all decide, by decide,
   by with_unfolding_all rfl, by decide, by decide⟩

/-- C6 amended: both not-duplicated masks are computed on the full
pre-dedup sequence and intersected (the second `.loc` label-aligns the
full-frame mask), so a record is kept exactly when it is the first
occurrence of its joined `provider + "|" + listing_id` key AND the first
occurrence of its joined
`title + "|" + district + "|" + str(price_sar with absent replaced by -1)`
key in the original sequence — first-seen-wins per key, but the second
mask is not recomputed on the first-pass result, so a record whose second
key duplicates an already-removed record is also dropped, and records
whose joined key strings collide (absent price versus price `-1`, or
fields containing the separator) are removed too. -/
theorem C6_dedup_amended :
    ∀ (x r : Listing) (xs l : List Listing) (s1 s2 : List String),
      dedup l = applyMask l (maskAnd (notDupMask key1 l) (notDupMask key2 l))
      ∧ dedup l = dedupRec [] [] l
      ∧ dedupRec s1 s2 ([] : List Listing) = []
      ∧ dedupRec s1 s2 (x :: xs)
          = (if key1 x ∉ s1 ∧ key2 x ∉ s2 then
               x :: dedupRec (key1 x :: s1) (key2 x :: s2) xs
             else dedupRec (key1 x :: s1) (key2 x :: s2) xs)
      ∧ key1 r = r.provider ++ "|" ++ r.listing_id
      ∧ key2 r = r.title ++ "|" ++ r.district.getD "" ++ "|" ++ qstr (r.price_sar.getD (-1)) := by
  intro x r xs l s1 s2
  exact ⟨rfl, dedup_eq_dedupRec l, rfl, rfl, rfl, rfl⟩

/-- C6 witness: the mask form and the sequential form agree at a concrete
three-record list. -/
theorem C6_dedup_witness :
    dedup [mA, mB, mC] = dedupRec [] [] [mA, mB, mC] :=
  (C6_dedup_amended mA mA [] [mA, mB, mC] [] []).2.1

/-- C7: applying the deduplication step twice yields the same record list
as applying it once — the survivors of the mask intersection have pairwise
distinct first keys and pairwise distinct second keys, so on a second run
both precomputed masks are all-true and every record is kept. -/
theorem C7_dedup_idempotent : ∀ l : List Listing, dedup (dedup l) = dedup l := by
  intro l
  rw [dedup_eq_dedupRec l]
  rw [dedup_eq_dedupRec (dedupRec [] [] l)]
  exact dedupRec_eq_self [] [] (dedupRec [] [] l) (pairwise_dedupRec [] [] l) (by simp)

/-- C7 witness: idempotence at a concrete two-record list. -/
theorem C7_dedup_idempotent_witness :
    dedup (dedup [cexA, cexB]) = dedup [cexA, cexB] :=
  C7_dedup_idempotent [cexA, cexB]

theorem centroidFallback_hit {r : Listing} {dn : String} {c : ℚ × ℚ}
    (hd : r.district = some dn) (hc : centroidLookup dn = some c)
    (hmiss : r.latitude = none ∨ r.longitude = none) :
    centroidFallback r = { r with latitude := some c.1, longitude := some c.2 } := by
  unfold centroidFallback
  rw [hd]
  simp only [hc]
  rw [if_pos ?_]
  rcases hmiss with h | h <;> simp [h]

theorem centroidFallback_skip_full {r : Listing}
    (hla : r.latitude.isSome = true) (hlo : r.longitude.isSome = true) :
    centroidFallback r = r := by
  obtain ⟨v, hv⟩ := Option.isSome_iff_exists.mp hla
  obtain ⟨w, hw⟩ := Option.isSome_iff_exists.mp hlo
  unfold centroidFallback
  cases hd : r.district with
  | none => rfl
  | some dn =>
    dsimp only
    cases hc : centroidLookup dn with
    | none => rfl
    | some c =>
      dsimp only
      rw [if_neg (by simp [hv, hw])]

theorem centroidFallback_skip_nodistrict {r : Listing} (hd : r.district = none) :
    centroidFallback r = r := by
  unfold centroidFallback
  rw [hd]

theorem centroidFallback_skip_unknown {r : Listing} {dn : String}
    (hd : r.district = some dn) (hc : centroidLookup dn = none) :
    centroidFallback r = r := by
  unfold centroidFallback
  rw [hd]
  dsimp only
  rw [hc]

/-- C8 counterexample: the claim says that after the centroid fallback
every record has latitude and longitude both present or both absent; but a
row whose district is not in the centroid table keeps its coordinates
unchanged, so a parseable latitude with an unparseable longitude survives
one-sided (reachable end to end through `normalizeRow`). -/
theorem C8_counterexample :
    (normalizeRow "aqar" c8row).map (fun l => (l.latitude.isSome, l.longitude, l.district))
      = .ok (true, none, some "Diriyah") := by
  with_unfolding_all rfl

/-- C8 amended: after the fallback, a record whose district is in the
centroid table has both coordinates present; the fallback substitutes
exactly the centroid pair of the table (no jitter) precisely when such a
district is present and at least one coordinate is missing; a record with
both coordinates present, or without a district, or with a district
outside the table, is left unchanged — so both-present-or-both-absent
holds only for records with table districts. -/
theorem C8_centroid_amended :
    ∀ (r : Listing) (dn : String) (c : ℚ × ℚ),
      (r.district = some dn → centroidLookup dn = some c →
        (centroidFallback r).latitude.isSome = true
          ∧ (centroidFallback r).longitude.isSome = true)
      ∧ (r.district = some dn → centroidLookup dn = some c →
          (r.latitude = none ∨ r.longitude = none) →
          centroidFallback r = { r with latitude := some c.1, longitude := some c.2 })
      ∧ (r.latitude.isSome = true → r.longitude.isSome = true → centroidFallback r = r)
      ∧ (r.district = none → centroidFallback r = r)
      ∧ (r.district = some dn → centroidLookup dn = none → centroidFallback r = r) := by
  intro r dn c
  refine ⟨?_, centroidFallback_hit, centroidFallback_skip_full,
    centroidFallback_skip_nodistrict, centroidFallback_skip_unknown⟩
  intro hd hc
  by_cases hla : r.latitude.isSome = true
  · by_cases hlo : r.longitude.isSome = true
    · rw [centroidFallback_skip_full hla hlo]
      exact ⟨hla, hlo⟩
    · have h0 : r.longitude = none := Option.not_isSome_iff_eq_none.mp hlo
      rw [centroidFallback_hit hd hc (Or.inr h0)]
      exact ⟨rfl, rfl⟩
  · have h0 : r.latitude = none := Option.not_isSome_iff_eq_none.mp hla
    rw [centroidFallback_hit hd hc (Or.inl h0)]
    exact ⟨rfl, rfl⟩

/-- C8 witness: the fallback applied to a record with a table district and
no coordinates substitutes the `Al Murooj` centroid. -/
theorem C8_centroid_witness :
    centroidFallback c8wListing
      = { c8wListing with latitude := some 24.7492, longitude := some 46.6768 }
    ∧ (centroidFallback c8wListing).latitude.isSome = true :=
  ⟨(C8_centroid_amended c8wListing "Al Murooj" (24.7492, 46.6768)).2.1 rfl
     (by with_unfolding_all rfl) (Or.inl rfl),
   ((C8_centroid_amended c8wListing "Al Murooj" (24.7492, 46.6768)).1 rfl
     (by with_unfolding_all rfl)).1⟩

/-- C9: the claim says the three numeric sort modes order the records with
absent keys last and do not raise.  The code instead passes the Series
`pd.to_numeric(data[col], errors="coerce")` itself as the `by` argument of
`DataFrame.sort_values`, which accepts only hashable column or level
labels and raises `KeyError` for a Series — so all three numeric sort
branches raise on every input, while a genuine column label would have
sorted (last conjunct shows the model errors only because of the Series
argument). -/
theorem C9_numeric_sorts_raise :
    (∀ rows : List Listing, appSort SortMode.price_lh rows = .error "KeyError")
    ∧ (∀ rows : List Listing, appSort SortMode.price_hl rows = .error "KeyError")
    ∧ (∀ rows : List Listing, appSort SortMode.size_ls rows = .error "KeyError")
    ∧ appSort SortMode.price_lh [sampleListing] = .error "KeyError"
    ∧ sortValues TEMPLATE_COLUMNS (SortBy.label "price_sar") true [sampleListing]
        = .ok [sampleListing] :=
  ⟨fun _ => rfl, fun _ => rfl, fun _ => rfl, rfl, by with_unfolding_all rfl⟩

/-- C9 witness: the failing evaluation at a one-record list. -/
theorem C9_numeric_sorts_raise_witness :
    appSort SortMode.size_ls [sampleListing] = .error "KeyError" :=
  C9_numeric_sorts_raise.2.2.1 [sampleListing]

/-- C10 counterexample: the claim says the declared provider name is used
whenever the provider cell holds a missing-marker; but a NaN cell is
truthy in Python, so `nd.get("provider") or provider_name` keeps the NaN,
and `to_str` then coerces the provider of the record to `"unknown"`, not to the
declared name. -/
theorem C10_counterexample :
    pdIsna (c10row.get "provider") = true
    ∧ (normalizeRow "aqar" c10row).map Listing.provider = .ok "unknown"
    ∧ "unknown" ≠ "aqar" :=
  ⟨rfl, by with_unfolding_all rfl, by decide⟩

/-- C10 amended: the declared provider name replaces the cell exactly when
the cell is Python-falsy — a missing column (`None`) or an empty string —
while a truthy cell is kept: a NaN missing-marker cell is kept and later
coerces to `"unknown"`, and a nonempty string cell is kept and used
(trimmed; a whitespace-only cell also ends as `"unknown"`).  The provider
the normalized record carries is always `normProvider`. -/
theorem C10_provider_amended :
    ∀ (nd : RawDict) (name : String),
      (∀ l, normalizeRow name nd = .ok l → l.provider = normProvider nd name)
      ∧ (nd.get "provider" = RawValue.pynone → providerCell nd name = RawValue.str name)
      ∧ (nd.get "provider" = RawValue.str "" → providerCell nd name = RawValue.str name)
      ∧ (nd.get "provider" = RawValue.nan →
          providerCell nd name = RawValue.nan ∧ normProvider nd name = "unknown")
      ∧ (∀ s, nd.get "provider" = RawValue.str s → s ≠ "" →
          providerCell nd name = RawValue.str s)
      ∧ (strTrim name ≠ "" → nd.get "provider" = RawValue.pynone →
          normProvider nd name = strTrim name) := by
  intro nd name
  refine ⟨?_, ?_, ?_, ?_, ?_, ?_⟩
  · intro l h
    unfold normalizeRow at h
    cases hfd : Listing.from_dict (nd.set "provider" (providerCell nd name)) with
    | error e =>
      rw [hfd] at h
      simp [Except.map] at h
    | ok l0 =>
      rw [hfd] at h
      simp only [Except.map] at h
      cases h
      obtain ⟨lid, hlid⟩ := from_dict_ok_fields hfd
      rw [centroidFallback_provider, hlid]
      show (toStr ((nd.set "provider" (providerCell nd name)).get "provider")).getD "unknown"
          = normProvider nd name
      rw [get_set_same]
      rfl
  · intro h
    unfold providerCell
    rw [h]
    rfl
  · intro h
    unfold providerCell
    rw [h]
    rfl
  · intro h
    have h1 : providerCell nd name = RawValue.nan := by
      unfold providerCell
      rw [h]
      rfl
    refine ⟨h1, ?_⟩
    unfold normProvider
    rw [h1]
    rfl
  · intro s h hs
    unfold providerCell
    rw [h]
    rw [if_pos (show pyTruthy (RawValue.str s) = true by simp [pyTruthy, hs])]
  · intro ht h
    have h1 : providerCell nd name = RawValue.str name := by
      unfold providerCell
      rw [h]
      rfl
    have h2 : toStr (RawValue.str name) = some (strTrim name) := by
      unfold toStr
      rw [if_neg (show ¬ pdIsna (RawValue.str name) = true by simp [pdIsna])]
      dsimp only [pyStr]
      rw [if_neg ht]
    unfold normProvider
    rw [h1, h2]
    rfl

/-- C10 witness: the fallback at a missing column and the NaN case at a
concrete row. -/
theorem C10_provider_witness :
    providerCell [] "aqar" = RawValue.str "aqar"
    ∧ normProvider [] "aqar" = strTrim "aqar"
    ∧ providerCell c10row "x" = RawValue.nan
    ∧ normProvider c10row "x" = "unknown" :=
  ⟨(C10_provider_amended [] "aqar").2.1 (by decide),
   (C10_provider_amended [] "aqar").2.2.2.2.2 (by decide) (by decide),
   ((C10_provider_amended c10row "x").2.2.2.1 (by decide)).1,
   ((C10_provider_amended c10row "x").2.2.2.1 (by decide)).2⟩
